import Mathlib

/-!
Shallow embedding of `src/modules/travel_switch/src/travel_switch.c`:
a GPIO travel-switch hold-detection state machine with LED feedback and
soft-off integration.

Modelling conventions:
- The C module's file-scope mutable globals (`state`, `blink_remaining`,
  `blink_led_is_on`, `switch_pressed`) become fields of a machine record `M`.
- The LED GPIO line is a Bool field `led`; every `led_on()` / `led_off()`
  call additionally bumps a write counter so that statements such as
  "the indicator was never turned on" are expressible.
- Each Zephyr delayable work item (`hold_timer_work`, `led_timeout_work`,
  `blink_step_work`) is an `Option Nat`: `none` when not pending, `some d`
  when scheduled with delay `d` ms.  `k_work_schedule` sets it,
  `k_work_cancel_delayable` clears it, and delivery of the expiry event
  consumes it before running the handler.  The plain work item
  `soft_off_work` (submitted with `k_work_submit`) is a Bool flag.
- `sys_poweroff()` is modelled by incrementing `poweroff_count`; since the
  primitive does not return, the step relation only fires events while
  `poweroff_count = 0` (the device is off afterwards).
- Every assignment to the C global `state` also pushes the new value onto
  `state_log` (most recent first), so "no intermediate state" is expressible.
- All handlers run to completion and are serialized, matching the single
  system-workqueue / serialized-context execution model of the module.
-/

namespace TravelSwitch

/-- The `enum travel_state` of the C module. -/
inductive TravelState where
  | idle
  | holdPending
  | ledCooldown
  | blinkSequence
  | wakeupHoldPending
  | shuttingDown
  deriving DecidableEq, Repr

/-- Devicetree configuration constants of the module
(`hold_time_ms`, `led_timeout_ms`, `blink_count`, `blink_interval_ms`). -/
structure Config where
  hold_time_ms : Nat
  led_timeout_ms : Nat
  blink_count : Nat
  blink_interval_ms : Nat
  deriving DecidableEq, Repr

/-- The mutable state of the module: C globals plus the modelled
environment (LED line, pending work items, poweroff counter, logs). -/
structure M where
  state : TravelState
  blink_remaining : Nat
  blink_led_is_on : Bool
  switch_pressed : Bool
  /-- current value of the LED GPIO line -/
  led : Bool
  /-- pending delay of `hold_timer_work`, `none` when not scheduled -/
  hold_timer : Option Nat
  /-- pending delay of `led_timeout_work`, `none` when not scheduled -/
  led_timeout : Option Nat
  /-- pending delay of `blink_step_work`, `none` when not scheduled -/
  blink_step : Option Nat
  /-- whether `soft_off_work` has been submitted and not yet run -/
  soft_off_pending : Bool
  /-- number of `sys_poweroff()` invocations -/
  poweroff_count : Nat
  /-- number of `led_on()` calls (writes of 1 to the LED line) -/
  led_on_writes : Nat
  /-- number of `led_off()` calls (writes of 0 to the LED line) -/
  led_off_writes : Nat
  /-- every value assigned to the C global `state`, most recent first -/
  state_log : List TravelState
  deriving DecidableEq, Repr

/-- `led_on()` (line 57): drive the LED GPIO to 1. -/
def led_on (m : M) : M :=
  { m with led := true, led_on_writes := m.led_on_writes + 1 }

/-- `led_off()` (line 62): drive the LED GPIO to 0. -/
def led_off (m : M) : M :=
  { m with led := false, led_off_writes := m.led_off_writes + 1 }

/-- Assignment to the C global `state`, recorded in `state_log`. -/
def set_state (s : TravelState) (m : M) : M :=
  { m with state := s, state_log := s :: m.state_log }

/-- `enter_soft_off()` (line 67): set `STATE_SHUTTING_DOWN`, LED off,
`sys_poweroff()`. -/
def enter_soft_off (m : M) : M :=
  let m := set_state .shuttingDown m
  let m := led_off m
  { m with poweroff_count := m.poweroff_count + 1 }

/-- `soft_off_handler()` (line 75): body of the `soft_off_work` item. -/
def soft_off_handler (m : M) : M :=
  enter_soft_off m

/-- `start_blink_sequence()` (line 80): enter `STATE_BLINK_SEQUENCE`,
reset blink progress, LED off, schedule the first blink step. -/
def start_blink_sequence (cfg : Config) (m : M) : M :=
  let m := set_state .blinkSequence m
  let m := { m with blink_remaining := cfg.blink_count, blink_led_is_on := false }
  let m := led_off m
  { m with blink_step := some (cfg.blink_interval_ms / 2) }

/-- `hold_timer_handler()` (line 90): on expiry, confirm the hold only in
`STATE_HOLD_PENDING` or `STATE_WAKEUP_HOLD_PENDING`. -/
def hold_timer_handler (cfg : Config) (m : M) : M :=
  if m.state = .holdPending ∨ m.state = .wakeupHoldPending then
    start_blink_sequence cfg m
  else
    m

/-- `led_timeout_handler()` (line 98): on expiry in `STATE_LED_COOLDOWN`,
LED off and return to `STATE_IDLE`. -/
def led_timeout_handler (m : M) : M :=
  if m.state = .ledCooldown then
    set_state .idle (led_off m)
  else
    m

/-- `blink_step_handler()` (line 107): advance the blink sequencer. -/
def blink_step_handler (cfg : Config) (m : M) : M :=
  if m.state ≠ .blinkSequence then
    m
  else if m.blink_remaining = 0 then
    let m := led_off m
    if !m.switch_pressed then enter_soft_off m else m
  else if !m.blink_led_is_on then
    let m := led_on m
    { m with
        blink_led_is_on := true,
        blink_step := some (cfg.blink_interval_ms / 2) }
  else
    let m := led_off m
    { m with
        blink_led_is_on := false,
        blink_remaining := m.blink_remaining - 1,
        blink_step := some (cfg.blink_interval_ms / 2) }

/-- `on_press()` (line 139): set the held flag, then dispatch on state. -/
def on_press (cfg : Config) (m : M) : M :=
  let m := { m with switch_pressed := true }
  if m.state = .idle then
    let m := set_state .holdPending m
    let m := led_on m
    { m with hold_timer := some cfg.hold_time_ms }
  else if m.state = .ledCooldown then
    let m := { m with led_timeout := none }
    let m := set_state .holdPending m
    let m := led_on m
    { m with hold_timer := some cfg.hold_time_ms }
  else
    m

/-- `on_release()` (line 168): clear the held flag, then dispatch on state. -/
def on_release (cfg : Config) (m : M) : M :=
  let m := { m with switch_pressed := false }
  if m.state = .holdPending then
    let m := { m with hold_timer := none }
    let m := set_state .ledCooldown m
    { m with led_timeout := some cfg.led_timeout_ms }
  else if m.state = .wakeupHoldPending then
    let m := { m with hold_timer := none }
    let m := led_off m
    enter_soft_off m
  else if m.state = .blinkSequence then
    if m.blink_remaining = 0 then
      { m with soft_off_pending := true }
    else
      m
  else
    m

/-- Events deliverable to the module: the two input-callback events and
execution of each pending work item. -/
inductive Event where
  | press
  | release
  | holdTimerFire
  | ledTimeoutFire
  | blinkStepFire
  | softOffRun
  deriving DecidableEq, Repr

/-- Whether an event can be delivered: press/release arrive any time the
device is on; a work item runs only if pending; nothing runs after
`sys_poweroff()` (which does not return). -/
def canFire (m : M) : Event → Bool
  | .press => m.poweroff_count == 0
  | .release => m.poweroff_count == 0
  | .holdTimerFire => m.hold_timer.isSome && m.poweroff_count == 0
  | .ledTimeoutFire => m.led_timeout.isSome && m.poweroff_count == 0
  | .blinkStepFire => m.blink_step.isSome && m.poweroff_count == 0
  | .softOffRun => m.soft_off_pending && m.poweroff_count == 0

/-- Deliver an event: a work item is consumed (no longer pending) before
its handler body runs, then the corresponding C handler executes. -/
def stepE (cfg : Config) (m : M) : Event → M
  | .press => on_press cfg m
  | .release => on_release cfg m
  | .holdTimerFire => hold_timer_handler cfg { m with hold_timer := none }
  | .ledTimeoutFire => led_timeout_handler { m with led_timeout := none }
  | .blinkStepFire => blink_step_handler cfg { m with blink_step := none }
  | .softOffRun => soft_off_handler { m with soft_off_pending := false }

/-- Labelled transition: `e` is deliverable at `m` and produces `mq`. -/
def Step (cfg : Config) (m : M) (e : Event) (mq : M) : Prop :=
  canFire m e = true ∧ mq = stepE cfg m e

/-- Run a list of events, failing if any event is not deliverable. -/
def runOk (cfg : Config) (m : M) : List Event → Option M
  | [] => some m
  | e :: es => if canFire m e then runOk cfg (stepE cfg m e) es else none

/-- Deliver the blink-step expiry: consume the work item, run the handler. -/
def fireBlink (cfg : Config) (m : M) : M :=
  blink_step_handler cfg { m with blink_step := none }

/-- Iterate `fireBlink` a fixed number of times. -/
def blinkRun (cfg : Config) (m : M) : Nat → M
  | 0 => m
  | n + 1 => blinkRun cfg (fireBlink cfg m) n

/-- The machine at program start: the C globals' static initial values
(`state = STATE_IDLE`, counters zero, nothing pending, LED line low). -/
def mInit : M :=
  { state := .idle
    blink_remaining := 0
    blink_led_is_on := false
    switch_pressed := false
    led := false
    hold_timer := none
    led_timeout := none
    blink_step := none
    soft_off_pending := false
    poweroff_count := 0
    led_on_writes := 0
    led_off_writes := 0
    state_log := [] }

/-- `travel_switch_init()` (line 219).  Environment outcomes are passed as
parameters: readiness of the LED GPIO, the return value of its
configuration call, readiness of the switch GPIO, the return value of its
configuration call, and the value returned by `gpio_pin_get_dt` on the
switch line (negative = error, 0 = not held, positive = held).  Returns
the C function's return value paired with the resulting machine. -/
def travel_switch_init (cfg : Config) (led_ready : Bool) (led_cfg_ret : Int)
    (switch_ready : Bool) (switch_cfg_ret : Int) (pin_state : Int)
    (m : M) : Int × M :=
  if !led_ready then
    (-19, m)
  else if led_cfg_ret < 0 then
    (led_cfg_ret, m)
  else if !switch_ready then
    (0, set_state .idle m)
  else if switch_cfg_ret < 0 then
    (0, set_state .idle m)
  else if pin_state < 0 then
    (0, set_state .idle m)
  else if pin_state ≠ 0 then
    let m := { m with switch_pressed := true }
    let m := set_state .wakeupHoldPending m
    let m := led_on m
    (0, { m with hold_timer := some cfg.hold_time_ms })
  else
    (0, enter_soft_off m)

/-- A sample configuration used for concrete executions. -/
def cfgEx : Config :=
  { hold_time_ms := 3000, led_timeout_ms := 1000,
    blink_count := 2, blink_interval_ms := 100 }

/-- A machine sitting in `ShuttingDown`, for concrete instantiations. -/
def mShut : M := { mInit with state := .shuttingDown }

/-- A machine in `HoldPending` with the switch held, the LED on and the
hold timer pending, for concrete instantiations. -/
def mHold : M :=
  { mInit with
      state := .holdPending, switch_pressed := true, led := true,
      led_on_writes := 1, hold_timer := some cfgEx.hold_time_ms,
      state_log := [.holdPending] }

/-- A machine in `LedCooldown` with the LED on and the cooldown timer
pending, for concrete instantiations. -/
def mCool : M :=
  { mInit with
      state := .ledCooldown, led := true, led_on_writes := 1,
      led_timeout := some cfgEx.led_timeout_ms,
      state_log := [.ledCooldown, .holdPending] }

/-- A machine in `WakeupHoldPending` with the switch held, for concrete
instantiations. -/
def mWake : M :=
  { mInit with
      state := .wakeupHoldPending, switch_pressed := true,
      led := true, led_on_writes := 1, hold_timer := some cfgEx.hold_time_ms,
      state_log := [.wakeupHoldPending] }

/-- Claim C3: every event delivered in `ShuttingDown` leaves the state at
`ShuttingDown`, leaves the indicator (value and write counts) unchanged,
and schedules no timer: the press and release handlers only record the
held flag, and the three timer-expiry handlers are the identity. -/
theorem shuttingDown_absorbing (cfg : Config) (m : M)
    (h : m.state = .shuttingDown) :
    on_press cfg m = { m with switch_pressed := true } ∧
    on_release cfg m = { m with switch_pressed := false } ∧
    hold_timer_handler cfg m = m ∧
    led_timeout_handler m = m ∧
    blink_step_handler cfg m = m := by
  refine ⟨?_, ?_, ?_, ?_, ?_⟩ <;>
    simp [on_press, on_release, hold_timer_handler, led_timeout_handler,
      blink_step_handler, h]

/-- Claim C3 witness: the absorbing property at a concrete
`ShuttingDown` machine. -/
theorem shuttingDown_absorbing_witness :
    on_press cfgEx mShut = { mShut with switch_pressed := true } ∧
    on_release cfgEx mShut = { mShut with switch_pressed := false } ∧
    hold_timer_handler cfgEx mShut = mShut ∧
    led_timeout_handler mShut = mShut ∧
    blink_step_handler cfgEx mShut = mShut :=
  shuttingDown_absorbing cfgEx mShut rfl

/-- Claim C6: a release in `HoldPending` cancels the hold timer and moves
to `LedCooldown` with the cooldown timer scheduled, touching neither the
indicator nor the blink state (so no `BlinkSequence` entry and no LED-off
write); a press in `LedCooldown` cancels the cooldown timer, returns to
`HoldPending` with the hold timer scheduled and the indicator driven on
(and no LED-off write, so the indicator stays on throughout); a
cooldown-timer expiry in `LedCooldown` turns the indicator off and
returns to `Idle`. -/
theorem holdPending_release_cooldown_cycle (cfg : Config) (m : M) :
    (m.state = .holdPending →
      on_release cfg m =
        { m with
            switch_pressed := false, hold_timer := none,
            state := .ledCooldown, state_log := .ledCooldown :: m.state_log,
            led_timeout := some cfg.led_timeout_ms }) ∧
    (m.state = .ledCooldown →
      on_press cfg m =
        { m with
            switch_pressed := true, led_timeout := none,
            state := .holdPending, state_log := .holdPending :: m.state_log,
            led := true, led_on_writes := m.led_on_writes + 1,
            hold_timer := some cfg.hold_time_ms }) ∧
    (m.state = .ledCooldown →
      led_timeout_handler m =
        { m with
            led := false, led_off_writes := m.led_off_writes + 1,
            state := .idle, state_log := .idle :: m.state_log }) := by
  refine ⟨fun h => ?_, fun h => ?_, fun h => ?_⟩ <;>
    simp [on_release, on_press, led_timeout_handler, set_state, led_on,
      led_off, h]

/-- Claim C6 witness: the cooldown round trip at concrete machines. -/
theorem holdPending_release_cooldown_cycle_witness :
    on_release cfgEx mHold =
      { mHold with
          switch_pressed := false, hold_timer := none,
          state := .ledCooldown, state_log := .ledCooldown :: mHold.state_log,
          led_timeout := some cfgEx.led_timeout_ms } ∧
    on_press cfgEx mCool =
      { mCool with
          switch_pressed := true, led_timeout := none,
          state := .holdPending, state_log := .holdPending :: mCool.state_log,
          led := true, led_on_writes := mCool.led_on_writes + 1,
          hold_timer := some cfgEx.hold_time_ms } ∧
    led_timeout_handler mCool =
      { mCool with
          led := false, led_off_writes := mCool.led_off_writes + 1,
          state := .idle, state_log := .idle :: mCool.state_log } :=
  ⟨(holdPending_release_cooldown_cycle cfgEx mHold).1 rfl,
   (holdPending_release_cooldown_cycle cfgEx mCool).2.1 rfl,
   (holdPending_release_cooldown_cycle cfgEx mCool).2.2 rfl⟩

/-- Claim C7: any release delivered in `WakeupHoldPending` — whatever the
hold timer's pending status — cancels the hold timer, turns the indicator
off, and performs the terminal low-power action synchronously in the same
handler (`poweroff_count` is incremented, `soft_off_pending` is untouched,
so nothing goes through the deferred-execution queue). -/
theorem wakeup_release_direct_soft_off (cfg : Config) (m : M)
    (h : m.state = .wakeupHoldPending) :
    on_release cfg m =
      { m with
          switch_pressed := false, hold_timer := none, led := false,
          led_off_writes := m.led_off_writes + 2,
          state := .shuttingDown, state_log := .shuttingDown :: m.state_log,
          poweroff_count := m.poweroff_count + 1 } := by
  simp [on_release, enter_soft_off, set_state, led_off, h]

/-- Claim C7 witness: release at a concrete `WakeupHoldPending` machine. -/
theorem wakeup_release_direct_soft_off_witness :
    on_release cfgEx mWake =
      { mWake with
          switch_pressed := false, hold_timer := none, led := false,
          led_off_writes := mWake.led_off_writes + 2,
          state := .shuttingDown, state_log := .shuttingDown :: mWake.state_log,
          poweroff_count := mWake.poweroff_count + 1 } :=
  wakeup_release_direct_soft_off cfgEx mWake rfl

/-- Claim C8: at boot, when both GPIO setup calls succeed and the switch
line reads 0 (not held), initialization powers off immediately: the only
state ever assigned is `ShuttingDown` (the log is exactly that one entry),
the indicator is never driven on, the terminal action runs once, and the
function returns 0. -/
theorem boot_not_held_immediate_soft_off (cfg : Config) (lcr scr : Int)
    (hl : ¬ lcr < 0) (hs : ¬ scr < 0) :
    travel_switch_init cfg true lcr true scr 0 mInit =
      (0, { mInit with
          state := .shuttingDown, state_log := [.shuttingDown],
          led_off_writes := 1, poweroff_count := 1 }) := by
  simp [travel_switch_init, enter_soft_off, set_state, led_off, mInit, hl, hs]

/-- Claim C8 witness: a concrete successful boot with the switch line
reading 0. -/
theorem boot_not_held_immediate_soft_off_witness :
    travel_switch_init cfgEx true 0 true 0 0 mInit =
      (0, { mInit with
          state := .shuttingDown, state_log := [.shuttingDown],
          led_off_writes := 1, poweroff_count := 1 }) :=
  boot_not_held_immediate_soft_off cfgEx 0 0 (by decide) (by decide)

/-- Claim C9: at boot, when the switch line is not ready, cannot be
configured, or reads an error (negative), initialization sets the state
to `Idle`, never invokes the terminal action (`poweroff_count` stays 0),
and returns 0 (success). -/
theorem boot_switch_error_fail_open (cfg : Config) (lcr scr pr : Int)
    (sr : Bool) (hl : ¬ lcr < 0)
    (h : sr = false ∨ scr < 0 ∨ pr < 0) :
    travel_switch_init cfg true lcr sr scr pr mInit =
      (0, { mInit with state := .idle, state_log := [.idle] }) := by
  rcases h with h | h | h
  · simp [travel_switch_init, set_state, mInit, hl, h]
  · simp [travel_switch_init, set_state, mInit, hl, h]
  · rcases lt_or_le scr 0 with hscr | hscr
    · simp [travel_switch_init, set_state, mInit, hl, hscr]
    · simp [travel_switch_init, set_state, mInit, hl, not_lt.mpr hscr, h]

/-- Claim C9 witness: a concrete boot where the switch line read fails. -/
theorem boot_switch_error_fail_open_witness :
    travel_switch_init cfgEx true 0 true 0 (-5) mInit =
      (0, { mInit with state := .idle, state_log := [.idle] }) :=
  boot_switch_error_fail_open cfgEx 0 0 (-5) true (by decide)
    (Or.inr (Or.inr (by decide)))

/-- Claim C1: a delivered event moves the machine into `BlinkSequence`
from outside it exactly when that event is the hold-timer expiry and the
state is `HoldPending` or `WakeupHoldPending`; moreover a release
delivered in either `*HoldPending` state cancels the hold timer, so no
hold-timer expiry can be delivered afterwards (until rescheduled),
preventing `BlinkSequence` entry. -/
theorem blink_entry_iff_hold_timer (cfg : Config) (m : M) (e : Event)
    (mq : M) (h : Step cfg m e mq) :
    ((mq.state = .blinkSequence ∧ m.state ≠ .blinkSequence) ↔
      (e = .holdTimerFire ∧
        (m.state = .holdPending ∨ m.state = .wakeupHoldPending))) ∧
    ((m.state = .holdPending ∨ m.state = .wakeupHoldPending) →
      e = .release → ∀ mr : M, ¬ Step cfg mq .holdTimerFire mr) := by
  obtain ⟨hc, rfl⟩ := h
  constructor
  · cases e <;> rcases hst : m.state <;>
      simp [stepE, on_press, on_release, hold_timer_handler,
        led_timeout_handler, blink_step_handler, soft_off_handler,
        start_blink_sequence, enter_soft_off, set_state, led_on, led_off,
        hst]
  · rintro hst rfl mr ⟨hcf, _⟩
    rcases hst with hst | hst <;>
      simp [stepE, canFire, on_release, enter_soft_off, set_state, led_off,
        hst] at hcf

/-- Claim C1 witness: a hold-timer expiry delivered at a concrete
`HoldPending` machine. -/
theorem blink_entry_iff_hold_timer_witness :
    (((stepE cfgEx mHold .holdTimerFire).state = .blinkSequence ∧
        mHold.state ≠ .blinkSequence) ↔
      (Event.holdTimerFire = .holdTimerFire ∧
        (mHold.state = .holdPending ∨ mHold.state = .wakeupHoldPending))) ∧
    ((mHold.state = .holdPending ∨ mHold.state = .wakeupHoldPending) →
      Event.holdTimerFire = .release →
      ∀ mr : M,
        ¬ Step cfgEx (stepE cfgEx mHold .holdTimerFire) .holdTimerFire mr) :=
  blink_entry_iff_hold_timer cfgEx mHold .holdTimerFire
    (stepE cfgEx mHold .holdTimerFire) ⟨by decide, rfl⟩

/-- The held-flag consistency invariant: `*HoldPending` states imply the
switch is recorded as pressed, and `Idle`/`LedCooldown` imply it is
recorded as released. -/
def Inv (m : M) : Prop :=
  ((m.state = .holdPending ∨ m.state = .wakeupHoldPending) →
    m.switch_pressed = true) ∧
  ((m.state = .idle ∨ m.state = .ledCooldown) →
    m.switch_pressed = false)

instance (m : M) : Decidable (Inv m) := by
  unfold Inv; infer_instance

/-- Claim C10: the held flag is consistent with the state tag in every
reachable state: every delivered event preserves the invariant, and
initialization establishes it on every environment outcome. -/
theorem held_flag_consistent (cfg : Config) (m : M) (e : Event)
    (h : Inv m) :
    Inv (stepE cfg m e) ∧
    ∀ (lr sr : Bool) (lcr scr pr : Int),
      Inv (travel_switch_init cfg lr lcr sr scr pr mInit).2 := by
  constructor
  · cases e <;> rcases hst : m.state <;>
      simp [Inv, stepE, on_press, on_release, hold_timer_handler,
        led_timeout_handler, blink_step_handler, soft_off_handler,
        start_blink_sequence, enter_soft_off, set_state, led_on, led_off,
        hst] at h ⊢ <;>
      first
        | assumption
        | (split_ifs <;> simp_all)
  · intro lr sr lcr scr pr
    unfold travel_switch_init
    split_ifs <;>
      simp [Inv, set_state, led_on, enter_soft_off, led_off, mInit]

/-- Claim C10 witness: the invariant is preserved by a release at a
concrete `HoldPending` machine and established by a concrete boot. -/
theorem held_flag_consistent_witness :
    Inv (stepE cfgEx mHold .release) ∧
    Inv (travel_switch_init cfgEx true 0 true 0 1 mInit).2 :=
  ⟨(held_flag_consistent cfgEx mHold .release (by decide)).1,
   (held_flag_consistent cfgEx mHold .release (by decide)).2 true true 0 0 1⟩

/-- Helper for the blink sequencer: from any point of the sequence with
the LED in its off phase and `n` cycles remaining, `2 * n` step firings
perform exactly `n` LED-on writes and `n` LED-off writes, ending with zero
cycles remaining, still in `BlinkSequence`, with the held flag, the
poweroff count and the soft-off submission untouched. -/
theorem blinkRun_cycles (cfg : Config) (n : Nat) :
    ∀ m : M, m.state = .blinkSequence → m.blink_led_is_on = false →
      m.blink_remaining = n → m.led = false →
      (blinkRun cfg m (2 * n)).state = .blinkSequence ∧
      (blinkRun cfg m (2 * n)).blink_remaining = 0 ∧
      (blinkRun cfg m (2 * n)).blink_led_is_on = false ∧
      (blinkRun cfg m (2 * n)).led = false ∧
      (blinkRun cfg m (2 * n)).led_on_writes = m.led_on_writes + n ∧
      (blinkRun cfg m (2 * n)).led_off_writes = m.led_off_writes + n ∧
      (blinkRun cfg m (2 * n)).switch_pressed = m.switch_pressed ∧
      (blinkRun cfg m (2 * n)).poweroff_count = m.poweroff_count ∧
      (blinkRun cfg m (2 * n)).soft_off_pending = m.soft_off_pending := by
  induction n with
  | zero =>
    intro m h1 h2 h3 h4
    simp [blinkRun, h1, h2, h3, h4]
  | succ n ih =>
    intro m h1 h2 h3 h4
    have hm2 : fireBlink cfg (fireBlink cfg m) =
        { m with
            blink_led_is_on := false,
            blink_remaining := n,
            led := false,
            blink_step := some (cfg.blink_interval_ms / 2),
            led_on_writes := m.led_on_writes + 1,
            led_off_writes := m.led_off_writes + 1 } := by
      simp [fireBlink, blink_step_handler, led_on, led_off, h1, h2, h3]
    have e2 : 2 * (n + 1) = 2 * n + 1 + 1 := by ring
    rw [e2]
    simp only [blinkRun]
    obtain ⟨c1, c2, c3, c4, c5, c6, c7, c8, c9⟩ :=
      ih (fireBlink cfg (fireBlink cfg m))
        (by rw [hm2]; simp [h1]) (by rw [hm2]) (by rw [hm2]) (by rw [hm2])
    refine ⟨c1, c2, c3, c4, ?_, ?_, ?_, ?_, ?_⟩
    · rw [c5, hm2]; simp; omega
    · rw [c6, hm2]; simp; omega
    · rw [c7, hm2]
    · rw [c8, hm2]
    · rw [c9, hm2]

/-- Running blink steps splits over addition of step counts. -/
theorem blinkRun_add (cfg : Config) (a : Nat) :
    ∀ (m : M) (b : Nat),
      blinkRun cfg m (a + b) = blinkRun cfg (blinkRun cfg m a) b := by
  induction a with
  | zero => intro m b; simp [blinkRun]
  | succ a ih =>
    intro m b
    rw [Nat.succ_add]
    simp only [blinkRun]
    exact ih (fireBlink cfg m) b

/-- Claim C4: a complete `BlinkSequence` run, from entry through the
`2 * blink_count` step firings that bring it to its terminal condition,
performs exactly `blink_count` LED-on writes and (besides the entry
LED-off write) `blink_count` LED-off writes, for every value of the held
flag (which the run leaves untouched); the completion firing after them
adds no further LED-on write whichever value the held flag has; and a
press or release delivered mid-sequence (cycles still remaining) changes
nothing but the held flag, so interleaving them cannot alter the cycle
count. -/
theorem blink_sequence_exact_cycles (cfg : Config) (m : M) :
    ((blinkRun cfg (start_blink_sequence cfg m)
        (2 * cfg.blink_count)).led_on_writes
          = m.led_on_writes + cfg.blink_count ∧
     (blinkRun cfg (start_blink_sequence cfg m)
        (2 * cfg.blink_count)).led_off_writes
          = m.led_off_writes + 1 + cfg.blink_count ∧
     (blinkRun cfg (start_blink_sequence cfg m)
        (2 * cfg.blink_count)).blink_remaining = 0 ∧
     (blinkRun cfg (start_blink_sequence cfg m)
        (2 * cfg.blink_count)).state = .blinkSequence ∧
     (blinkRun cfg (start_blink_sequence cfg m)
        (2 * cfg.blink_count)).poweroff_count = m.poweroff_count ∧
     (blinkRun cfg (start_blink_sequence cfg m)
        (2 * cfg.blink_count)).switch_pressed = m.switch_pressed ∧
     (blinkRun cfg (start_blink_sequence cfg m)
        (2 * cfg.blink_count + 1)).led_on_writes
          = m.led_on_writes + cfg.blink_count) ∧
    (∀ mq : M, mq.state = .blinkSequence → mq.blink_remaining ≠ 0 →
      on_press cfg mq = { mq with switch_pressed := true } ∧
      on_release cfg mq = { mq with switch_pressed := false }) := by
  constructor
  · obtain ⟨c1, c2, c3, c4, c5, c6, c7, c8, c9⟩ :=
      blinkRun_cycles cfg cfg.blink_count (start_blink_sequence cfg m)
        (by simp [start_blink_sequence, set_state, led_off])
        (by simp [start_blink_sequence, set_state, led_off])
        (by simp [start_blink_sequence, set_state, led_off])
        (by simp [start_blink_sequence, set_state, led_off])
    have hz : (fireBlink cfg
        (blinkRun cfg (start_blink_sequence cfg m)
          (2 * cfg.blink_count))).led_on_writes
        = (blinkRun cfg (start_blink_sequence cfg m)
            (2 * cfg.blink_count)).led_on_writes := by
      rcases hp : (blinkRun cfg (start_blink_sequence cfg m)
          (2 * cfg.blink_count)).switch_pressed <;>
        simp [fireBlink, blink_step_handler, led_off, enter_soft_off,
          set_state, c1, c2, hp]
    refine ⟨?_, ?_, c2, c1, ?_, ?_, ?_⟩
    · rw [c5]; simp [start_blink_sequence, set_state, led_off]
    · rw [c6]; simp [start_blink_sequence, set_state, led_off]
    · rw [c8]; simp [start_blink_sequence, set_state, led_off]
    · rw [c7]; simp [start_blink_sequence, set_state, led_off]
    · rw [blinkRun_add cfg (2 * cfg.blink_count)]
      simp only [blinkRun]
      rw [hz, c5]
      simp [start_blink_sequence, set_state, led_off]
  · intro mq h1 h2
    constructor
    · simp [on_press, h1]
    · simp [on_release, h1, h2]

/-- A machine mid-`BlinkSequence` with one cycle remaining and the switch
held, for concrete instantiations. -/
def mBlinkMid : M :=
  { mInit with
      state := .blinkSequence, blink_remaining := 1, switch_pressed := true,
      led := true, led_on_writes := 2, led_off_writes := 2,
      blink_step := some (cfgEx.blink_interval_ms / 2),
      state_log := [.blinkSequence, .holdPending] }

/-- Claim C4 witness: the exact cycle count from a concrete blink entry,
and a concrete mid-sequence press touching only the held flag. -/
theorem blink_sequence_exact_cycles_witness :
    (blinkRun cfgEx (start_blink_sequence cfgEx mInit)
        (2 * cfgEx.blink_count)).led_on_writes
          = mInit.led_on_writes + cfgEx.blink_count ∧
    on_press cfgEx mBlinkMid = { mBlinkMid with switch_pressed := true } :=
  ⟨(blink_sequence_exact_cycles cfgEx mInit).1.1,
   ((blink_sequence_exact_cycles cfgEx mInit).2 mBlinkMid rfl (by decide)).1⟩

/-- A machine in `BlinkSequence` at phase LedOn with one cycle remaining
and the switch already released, for concrete instantiations. -/
def mBlinkOn : M :=
  { mInit with
      state := .blinkSequence, blink_remaining := 1, blink_led_is_on := true,
      switch_pressed := false, led := true, led_on_writes := 2,
      led_off_writes := 2, blink_step := some (cfgEx.blink_interval_ms / 2),
      state_log := [.blinkSequence, .holdPending] }

/-- A machine in `BlinkSequence` whose cycle count has already reached
zero, switch still held, step timer pending, for concrete
instantiations. -/
def mBlinkDone : M :=
  { mInit with
      state := .blinkSequence, blink_remaining := 0, blink_led_is_on := false,
      switch_pressed := true, led := false, led_on_writes := 2,
      led_off_writes := 3, blink_step := some (cfgEx.blink_interval_ms / 2),
      state_log := [.blinkSequence, .holdPending] }

/-- Claim C5 counterexample: at a concrete `BlinkSequence` machine with
phase LedOn, one cycle remaining and the switch already released, the
step firing decrements the count to zero yet still reschedules the step
timer and neither performs nor submits the terminal action — the
sequence does not complete in that same step as the claim states. -/
theorem blink_same_step_completion_cex :
    (fireBlink cfgEx mBlinkOn).blink_remaining = 0 ∧
    (fireBlink cfgEx mBlinkOn).blink_step
      = some (cfgEx.blink_interval_ms / 2) ∧
    (fireBlink cfgEx mBlinkOn).poweroff_count = 0 ∧
    (fireBlink cfgEx mBlinkOn).soft_off_pending = false := by
  decide

/-- Claim C5 amended: a step firing at phase LedOn with a nonzero cycle
count turns the indicator off, sets phase to LedOff, decrements
`remaining_cycles` and reschedules the step timer unconditionally, even
when the decrement reaches zero; completion happens at the next firing,
which finds `remaining_cycles = 0`, forces the indicator off, never
reschedules, and performs the terminal action exactly when the held flag
is false. -/
theorem blink_on_phase_step (cfg : Config) (m : M) :
    (m.state = .blinkSequence → m.blink_led_is_on = true →
      m.blink_remaining ≠ 0 →
      fireBlink cfg m =
        { m with
            led := false, led_off_writes := m.led_off_writes + 1,
            blink_led_is_on := false,
            blink_remaining := m.blink_remaining - 1,
            blink_step := some (cfg.blink_interval_ms / 2) }) ∧
    (m.state = .blinkSequence → m.blink_remaining = 0 →
      fireBlink cfg m =
        if m.switch_pressed then
          { m with
              led := false, led_off_writes := m.led_off_writes + 1,
              blink_step := none }
        else
          { m with
              led := false, led_off_writes := m.led_off_writes + 2,
              blink_step := none, state := .shuttingDown,
              state_log := .shuttingDown :: m.state_log,
              poweroff_count := m.poweroff_count + 1 }) := by
  constructor
  · intro h1 h2 h3
    simp [fireBlink, blink_step_handler, led_off, h1, h2, h3]
  · intro h1 h2
    rcases hp : m.switch_pressed <;>
      simp [fireBlink, blink_step_handler, led_off, enter_soft_off,
        set_state, h1, h2, hp]

/-- Claim C5 witness (amended): both firing shapes at concrete machines. -/
theorem blink_on_phase_step_witness :
    fireBlink cfgEx mBlinkOn =
      { mBlinkOn with
          led := false, led_off_writes := mBlinkOn.led_off_writes + 1,
          blink_led_is_on := false,
          blink_remaining := mBlinkOn.blink_remaining - 1,
          blink_step := some (cfgEx.blink_interval_ms / 2) } ∧
    fireBlink cfgEx mBlinkDone =
      if mBlinkDone.switch_pressed then
        { mBlinkDone with
            led := false, led_off_writes := mBlinkDone.led_off_writes + 1,
            blink_step := none }
      else
        { mBlinkDone with
            led := false, led_off_writes := mBlinkDone.led_off_writes + 2,
            blink_step := none, state := .shuttingDown,
            state_log := .shuttingDown :: mBlinkDone.state_log,
            poweroff_count := mBlinkDone.poweroff_count + 1 } :=
  ⟨(blink_on_phase_step cfgEx mBlinkOn).1 rfl rfl (by decide),
   (blink_on_phase_step cfgEx mBlinkDone).2 rfl rfl⟩

/-- An event is deliverable only while the device has not powered off. -/
theorem canFire_poweroff (m : M) (e : Event) (h : canFire m e = true) :
    m.poweroff_count = 0 := by
  cases e <;> simp [canFire, Bool.and_eq_true, beq_iff_eq] at h <;>
    first | exact h | exact h.2

/-- No single delivered event performs the terminal action more than
once: from a powered-on machine, one step leaves at most one poweroff. -/
theorem stepE_poweroff_le (cfg : Config) (m : M) (e : Event)
    (h : m.poweroff_count = 0) : (stepE cfg m e).poweroff_count ≤ 1 := by
  cases e <;> rcases hst : m.state <;>
    simp [stepE, on_press, on_release, hold_timer_handler,
      led_timeout_handler, blink_step_handler, soft_off_handler,
      start_blink_sequence, enter_soft_off, set_state, led_on, led_off,
      hst, h] <;>
    split_ifs <;> simp [h]

/-- Along any deliverable trace the poweroff count never exceeds one:
once `sys_poweroff()` has run, no further event is deliverable. -/
theorem runOk_poweroff_le (cfg : Config) :
    ∀ (es : List Event) (m mq : M), m.poweroff_count ≤ 1 →
      runOk cfg m es = some mq → mq.poweroff_count ≤ 1 := by
  intro es
  induction es with
  | nil =>
    intro m mq h hr
    simp [runOk] at hr
    simpa [hr.symm] using h
  | cons e es ih =>
    intro m mq h hr
    by_cases hcf : canFire m e = true
    · rw [runOk, if_pos hcf] at hr
      have h0 := canFire_poweroff m e hcf
      exact ih (stepE cfg m e) mq (stepE_poweroff_le cfg m e h0) hr
    · rw [runOk, if_neg hcf] at hr
      exact absurd hr (by simp)

/-- Ordering A: the switch is released while blink cycles are still in
progress; the final step firing observes the cleared held flag and
performs the terminal action itself. -/
def traceRelEarly : List Event :=
  [.press, .holdTimerFire, .blinkStepFire, .release, .blinkStepFire,
   .blinkStepFire, .blinkStepFire, .blinkStepFire]

/-- Ordering B: the blink sequence completes with the switch still held
(the completion firing waits); the release then submits the deferred
terminal action, which runs afterwards. -/
def traceRelLate : List Event :=
  [.press, .holdTimerFire, .blinkStepFire, .blinkStepFire, .blinkStepFire,
   .blinkStepFire, .blinkStepFire, .release, .softOffRun]

/-- Claim C2: on every deliverable event trace the terminal action runs
at most once (no event is deliverable after `sys_poweroff()`), and in
both orderings — release before blink completion, and release after —
the full concrete arm cycle from boot performs the terminal action
exactly once. -/
theorem terminal_action_exactly_once (cfg : Config) (es : List Event)
    (m mq : M) (h0 : m.poweroff_count ≤ 1)
    (hr : runOk cfg m es = some mq) :
    mq.poweroff_count ≤ 1 ∧
    (runOk cfgEx mInit traceRelEarly).map M.poweroff_count = some 1 ∧
    (runOk cfgEx mInit traceRelLate).map M.poweroff_count = some 1 :=
  ⟨runOk_poweroff_le cfg es m mq h0 hr, by decide, by decide⟩

/-- Claim C2 witness: the bound instantiated on the empty trace at the
initial machine, carrying the two concrete exactly-once executions. -/
theorem terminal_action_exactly_once_witness :
    mInit.poweroff_count ≤ 1 ∧
    (runOk cfgEx mInit traceRelEarly).map M.poweroff_count = some 1 ∧
    (runOk cfgEx mInit traceRelLate).map M.poweroff_count = some 1 :=
  terminal_action_exactly_once cfgEx [] mInit mInit (by decide) rfl

end TravelSwitch
